import Mathlib

/-!
# Verification of `serial_uploader` (src/serial_uploader/__init__.py)

A shallow embedding of the serial configuration uploader, faithful to the
Python source:

* the serial transport is modelled as a script of chunks (`Handler`): the
  chunk at position `t` is what `handler.inWaiting()`/`handler.read(...)`
  observe at the `t`-th poll; once the script is exhausted the port is
  silent (`""` forever);
* float second values carry no arithmetic in the source (they are only
  stored, compared for truthiness, and passed to `time.sleep`), so they are
  embedded exactly as natural numbers of milliseconds:
  `0.1 s ↦ 100`, `2.0 s ↦ 2000`, the CLI default `0.01 s ↦ 10`;
* Python exceptions become `Except UploadErr`, with one constructor per
  distinct `raise` site (plus `unboundLocal` for Python's
  `UnboundLocalError` on reading a never-assigned local);
* the `while` loops of `_send_line`, `_wait_for` and
  `_make_sure_we_are_in_the_first_screen` can genuinely diverge in Python
  (e.g. a transport that always reports pending bytes), so each is embedded
  with an explicit fuel counter; `none` means "still running after `fuel`
  steps" and every theorem either supplies sufficient fuel or is stated for
  all outcomes of the form `some _`;
* every write, read and sleep is recorded in an event trace (`Event`), and
  the upload loop additionally records the exact parameters of each
  `_send_line` call it makes (`LineSpec`), so ordering and per-line policy
  claims are statements about the trace.
-/

/-- Seconds scaled to milliseconds (the source only uses the float values
`0.01`, `0.1`, `2.0` and the user-supplied retry interval; none of them is
ever subject to arithmetic). -/
abbrev Millis := Nat

/-- `0.1` seconds, the default `retry_interval` of `_send_line`. -/
def tenthSecond : Millis := 100

/-- `2.0` seconds, the `extra_wait` used for "crypto key generate" lines. -/
def twoSeconds : Millis := 2000

/-- `0.01` seconds, the CLI default for `--retry-interval`. -/
def defaultCliInterval : Millis := 10

/-- Python `str.startswith`, char by char (first argument: the string,
second: the candidate head). -/
def strStarts : List Char → List Char → Bool
  | _, [] => true
  | [], _ :: _ => false
  | c :: cs, d :: ds => c == d && strStarts cs ds

/-- Python `needle in hay` on char lists. -/
def hasSubChars (hay needle : List Char) : Bool :=
  match hay with
  | [] => needle.isEmpty
  | c :: t => strStarts (c :: t) needle || hasSubChars t needle

/-- Python `needle in hay` on strings. -/
def strHasSub (hay needle : String) : Bool :=
  hasSubChars hay.toList needle.toList

/-- Python `str.lower()` (the needles in the source are plain ASCII, where
`Char.toLower` and Python's `lower` agree). -/
def lowerStr (s : String) : String :=
  String.mk (s.toList.map Char.toLower)

/-- Python `str.strip()`: drop whitespace from both ends. -/
def pyStrip (s : String) : String :=
  String.mk
    (((s.toList.dropWhile Char.isWhitespace).reverse.dropWhile
        Char.isWhitespace).reverse)

/-- `_in_error` (source lines 10-11): `"invalid" in result.lower()`. -/
def in_error (result : String) : Bool :=
  strHasSub (lowerStr result) "invalid"

/-- One observable step of the program: a write to the serial port, a read
of the currently pending chunk, or a `time.sleep`. -/
inductive Event where
  | write (data : String)
  | read (chunk : String)
  | sleep (ms : Millis)
  deriving Repr, DecidableEq

/-- The distinct `raise` sites of the source, plus Python's
`UnboundLocalError`. -/
inductive UploadErr where
  /-- `_send_line`: "Unable to get response in {tries} tries." -/
  | timeout (tries : Nat)
  /-- `_send_line`: "Error while sending line:\n{line}\n\nGot result:\n{result}". -/
  | deviceError (line result : String)
  /-- `_wait_for`: "Timed out trying to wait for {expected_string} ...". -/
  | waitTimeout (expected : String) (tries : Nat)
  /-- `_authenticate`: "Authentication failed". -/
  | authFailed
  /-- `_open_device_config`: "Enable authentication failed". -/
  | enableAuthFailed
  /-- Python `UnboundLocalError` for the given local variable. -/
  | unboundLocal (name : String)
  deriving Repr, DecidableEq

/-- The scripted transport: `script` is the list of chunks the port will
make available, one per poll; past the end the port is silent. -/
structure Handler where
  script : List String
  deriving Repr, DecidableEq

/-- `handler.inWaiting()` / `handler.read(handler.inWaiting())` observe the
current chunk. -/
def Handler.peek (h : Handler) : String := h.script.headD ""

/-- Consuming the current chunk (a poll happened). -/
def Handler.pop (h : Handler) : Handler := ⟨h.script.tail⟩

/-- The poll loop of `_send_line` (source lines 38-42):

    while handler.inWaiting() or not result_bytes and tries_left:
        new_chunk = handler.read(handler.inWaiting())
        result_bytes += new_chunk
        time.sleep(retry_interval)
        tries_left -= 1

`tries_left` is an `Int` because the loop keeps decrementing it below zero
when the port keeps reporting pending bytes. `fuel` bounds the number of
loop iterations considered; `none` means the bound was hit. The returned
tuple is (handler after the loop, accumulated bytes, final `tries_left`,
extended event trace). -/
def pollLoop (ri : Millis) : Nat → Handler → String → Int → List Event →
    Option (Handler × String × Int × List Event)
  | 0, _, _, _, _ => none
  | Nat.succ f, h, acc, triesLeft, evs =>
    if h.peek ≠ "" ∨ (acc = "" ∧ triesLeft ≠ 0) then
      pollLoop ri f h.pop (acc ++ h.peek) (triesLeft - 1)
        (evs ++ [Event.read h.peek, Event.sleep ri])
    else
      some (h, acc, triesLeft, evs)

/-- The classification step of `_send_line` (source lines 47-53): raise
`DeviceError` when the decoded response is error-marked and failure was not
pre-approved, otherwise return the decoded response. -/
def classify (line result : String) (allow_fail : Bool) :
    Except UploadErr String :=
  if in_error result && !allow_fail then
    Except.error (UploadErr.deviceError line result)
  else
    Except.ok result

/-- `_send_line` (source lines 14-53). The result carries the event trace,
the handler after the call (Python mutates the port in place, and two
callers catch the exception and keep using the port), and either the raised
error or the returned value — `none` for Python's bare `return` on the
`wait=False` path, `some text` otherwise. -/
def send_line (h : Handler) (line : String) (wait allow_fail : Bool)
    (tries : Nat) (append_newline : Bool) (extra_wait ri : Millis)
    (fuel : Nat) :
    Option (List Event × Handler × Except UploadErr (Option String)) :=
  let line := if append_newline then pyStrip line ++ "\r\n" else line
  let evs : List Event := [Event.write line]
  if wait = false then
    some (evs, h, Except.ok none)
  else
    let evs := if extra_wait ≠ 0 then evs ++ [Event.sleep extra_wait] else evs
    match pollLoop ri fuel h "" (tries : Int) evs with
    | none => none
    | some (h1, acc, triesLeft, evs1) =>
      if triesLeft = 0 then
        some (evs1, h1, Except.error (UploadErr.timeout tries))
      else
        match classify line acc allow_fail with
        | Except.error e => some (evs1, h1, Except.error e)
        | Except.ok r => some (evs1, h1, Except.ok (some r))

/-- The per-line `allow_fail` policy of `upload_config` (source lines
206-209), computed on the stripped line. -/
def allow_fail_for (line : String) : Bool :=
  pyStrip line = "y" ||
    strStarts (pyStrip line).toList "define interface-range".toList

/-- The exact parameters of one `_send_line` call made by the upload loop
(source lines 224-231): the stripped line and the policy values passed. -/
structure LineSpec where
  line : String
  allow_fail : Bool
  tries : Nat
  extra_wait : Millis
  retry_interval : Millis
  deriving Repr, DecidableEq

/-- The local variables of `upload_config` that the per-line loop threads
from one iteration to the next (source lines 196-231). `tries_v` and
`extra_wait_v` are `Option`s because Python leaves the locals `tries` and
`extra_wait` unbound until the first loop iteration assigns them, while
`retry_interval_v` starts bound (it is the function parameter). -/
structure LoopSt where
  next_tries : Nat
  next_retry_interval : Millis
  tries_v : Option Nat
  extra_wait_v : Option Millis
  retry_interval_v : Millis
  deriving Repr, DecidableEq

/-- One iteration of the body of the upload loop up to (and including) the
computation of the `_send_line` arguments (source lines 200-231):

    tries = next_tries
    retry_interval = next_retry_interval
    extra_wait = 0.0
    line = line.strip()
    allow_fail = (line == "y" or line.startswith("define interface-range"))
    if "crypto key generate" in line:
        next_tries = 5000; extra_wait = 2.0; next_retry_interval = 0.1
    else:
        next_tries = 100; next_retry_interval = original_retry_interval

Returns the `LineSpec` of the `_send_line` call this iteration makes and
the loop state left for the next iteration. -/
def lineStep (orig : Millis) (st : LoopSt) (rawLine : String) :
    LineSpec × LoopSt :=
  let tries := st.next_tries
  let retry_interval := st.next_retry_interval
  let line := pyStrip rawLine
  let af := allow_fail_for rawLine
  if strHasSub line "crypto key generate" then
    (⟨line, af, tries, twoSeconds, retry_interval⟩,
     ⟨5000, tenthSecond, some tries, some twoSeconds, retry_interval⟩)
  else
    (⟨line, af, tries, 0, retry_interval⟩,
     ⟨100, orig, some tries, some 0, retry_interval⟩)

/-- The per-line loop of `upload_config` (source lines 200-237): each line
is sent with the parameters `lineStep` computes; a raised exception aborts
the loop and propagates. Also accumulates the `LineSpec` of every
`_send_line` call made. -/
def uploadLoop (orig : Millis) (fuel : Nat) :
    Handler → LoopSt → List String → List Event → List LineSpec →
    Option (List Event × List LineSpec × Except UploadErr (Handler × LoopSt))
  | h, st, [], evs, specs => some (evs, specs, Except.ok (h, st))
  | h, st, rawLine :: rest, evs, specs =>
    let (sp, st') := lineStep orig st rawLine
    match send_line h sp.line true sp.allow_fail sp.tries true sp.extra_wait
        sp.retry_interval fuel with
    | none => none
    | some (ev, _, Except.error e) =>
      some (evs ++ ev, specs ++ [sp], Except.error e)
    | some (ev, h1, Except.ok _) =>
      uploadLoop orig fuel h1 st' rest (evs ++ ev) (specs ++ [sp])

/-- The persistence block of `upload_config` (source lines 239-249):

    _send_line(handler, "end", wait=True, allow_fail=True)
    result = _send_line(handler, "copy running-config startup-config",
                        allow_fail=False, tries=tries, extra_wait=extra_wait,
                        retry_interval=retry_interval)

The "end" send uses `_send_line`'s own defaults (`tries=100`,
`retry_interval=0.1`). The copy send reads the loop locals `tries` and
`extra_wait`; when the loop never ran these are unbound and Python raises
`UnboundLocalError` while evaluating the arguments, before any write. -/
def persistStep (h : Handler) (tries_v : Option Nat) (extra_wait_v : Option Millis)
    (retry_interval_v : Millis) (fuel : Nat) :
    Option (List Event × Except UploadErr Handler) :=
  match send_line h "end" true true 100 true 0 tenthSecond fuel with
  | none => none
  | some (ev1, _, Except.error e) => some (ev1, Except.error e)
  | some (ev1, h1, Except.ok _) =>
    match tries_v, extra_wait_v with
    | some tries, some extra_wait =>
      match send_line h1 "copy running-config startup-config" true false tries
          true extra_wait retry_interval_v fuel with
      | none => none
      | some (ev2, _, Except.error e) => some (ev1 ++ ev2, Except.error e)
      | some (ev2, h2, Except.ok _) => some (ev1 ++ ev2, Except.ok h2)
    | _, _ => some (ev1, Except.error (UploadErr.unboundLocal "tries"))

/-- The post-negotiation portion of `upload_config` (source lines 196-249):
initialize the rolling policy state, run the per-line loop, then the
persistence block when `persist` is set. -/
def runUpload (h : Handler) (lines : List String) (retry_interval : Millis)
    (persist : Bool) (fuel : Nat) :
    Option (List Event × List LineSpec × Except UploadErr Handler) :=
  let st0 : LoopSt := ⟨100, retry_interval, none, none, retry_interval⟩
  match uploadLoop retry_interval fuel h st0 lines [] [] with
  | none => none
  | some (evs, specs, Except.error e) => some (evs, specs, Except.error e)
  | some (evs, specs, Except.ok (h1, st)) =>
    if persist then
      match persistStep h1 st.tries_v st.extra_wait_v st.retry_interval_v fuel with
      | none => none
      | some (ev2, Except.error e) => some (evs ++ ev2, specs, Except.error e)
      | some (ev2, Except.ok h2) => some (evs ++ ev2, specs, Except.ok h2)
    else
      some (evs, specs, Except.ok h1)

/-- A `wait=False` `_send_line` call: it always returns right after the
write, so the `Option`/`Except` wrappers are degenerate and peeled off. -/
def sendNoWait (h : Handler) (line : String) (af : Bool) :
    List Event × Handler :=
  match send_line h line false af 100 true 0 tenthSecond 0 with
  | some (ev, h1, _) => (ev, h1)
  | none => ([], h)

/-- `_wait_for` (source lines 57-83): keep sending blank waiting lines until
the response contains `expected`; a failed send consumes one retry, and a
failure with the counter at zero raises. A response that never contains
`expected` loops forever in Python — `fuel` bounds the iterations
considered here. -/
def wait_for (sendFuel : Nat) (expected : String) (tries : Nat) :
    Nat → Handler → String → Nat → List Event →
    Option (List Event × Except UploadErr (Handler × String))
  | 0, h, result, _, evs =>
    if strHasSub result expected then some (evs, Except.ok (h, result))
    else none
  | Nat.succ f, h, result, triesLeft, evs =>
    if strHasSub result expected then some (evs, Except.ok (h, result))
    else
      match send_line h "" true false 10 true 0 tenthSecond sendFuel with
      | none => none
      | some (ev, h1, Except.ok r) =>
        wait_for sendFuel expected tries f h1 (r.getD "") triesLeft (evs ++ ev)
      | some (ev, h1, Except.error _) =>
        if triesLeft = 0 then
          some (evs ++ ev, Except.error (UploadErr.waitTimeout expected tries))
        else
          wait_for sendFuel expected tries f h1 result (triesLeft - 1) (evs ++ ev)

/-- `_authenticate` (source lines 86-108): wait for the "Username" cue, send
the username verbatim plus a bare newline, wait for the "Password" cue
unless already present, send the password, and raise when the response
contains "Authentication failed"; otherwise return that response. -/
def authenticate (sendFuel waitFuel : Nat) (h : Handler)
    (user password current : String) :
    Option (List Event × Except UploadErr (Handler × String)) :=
  match wait_for sendFuel "Username" 10 waitFuel h current 10 [] with
  | none => none
  | some (ev1, Except.error e) => some (ev1, Except.error e)
  | some (ev1, Except.ok (h1, _)) =>
    match send_line h1 (user ++ "\n") true false 100 false 0 tenthSecond
        sendFuel with
    | none => none
    | some (ev2, _, Except.error e) => some (ev1 ++ ev2, Except.error e)
    | some (ev2, h2, Except.ok r2) =>
      let res2 := r2.getD ""
      let afterPw :=
        if strHasSub res2 "Password" then
          some (ev1 ++ ev2, Except.ok (h2, res2))
        else
          wait_for sendFuel "Password" 10 waitFuel h2 res2 10 (ev1 ++ ev2)
      match afterPw with
      | none => none
      | some (ev3, Except.error e) => some (ev3, Except.error e)
      | some (ev3, Except.ok (h3, _)) =>
        match send_line h3 password true false 100 true 0 tenthSecond
            sendFuel with
        | none => none
        | some (ev4, _, Except.error e) => some (ev3 ++ ev4, Except.error e)
        | some (ev4, h4, Except.ok r4) =>
          let res4 := r4.getD ""
          if strHasSub res4 "Authentication failed" then
            some (ev3 ++ ev4, Except.error UploadErr.authFailed)
          else
            some (ev3 ++ ev4, Except.ok (h4, res4))

/-- The retry loop of `_make_sure_we_are_in_the_first_screen` (source lines
127-135): two fire-and-forget blank pings, a 0.1 s sleep, then a waiting
blank ping whose failure is swallowed; repeat until a non-empty response
arrives. -/
def firstScreenLoop (sendFuel : Nat) :
    Nat → Handler → List Event → Option (Handler × String × List Event)
  | 0, _, _ => none
  | Nat.succ f, h, evs =>
    let (p1, h1) := sendNoWait h "" false
    let (p2, h2) := sendNoWait h1 "" false
    let evs := evs ++ p1 ++ p2 ++ [Event.sleep tenthSecond]
    match send_line h2 "" true false 10 true 0 tenthSecond sendFuel with
    | none => none
    | some (ev, h3, Except.error _) => firstScreenLoop sendFuel f h3 (evs ++ ev)
    | some (ev, h3, Except.ok r) =>
      let res := r.getD ""
      if res = "" then firstScreenLoop sendFuel f h3 (evs ++ ev)
      else some (h3, res, evs ++ ev)

/-- `_make_sure_we_are_in_the_first_screen` (source lines 111-141): six
fire-and-forget "exit" lines, four fire-and-forget "disable" lines, the
blank-ping retry loop, and — when the obtained response contains
"[yes/no]" — one waiting "no" send whose result replaces the response.
That last send sits outside any try/except in the source. -/
def make_sure_we_are_in_the_first_screen (sendFuel loopFuel : Nat)
    (h : Handler) :
    Option (List Event × Except UploadErr (Handler × String)) :=
  let (e1, ha) := sendNoWait h "exit" true
  let (e2, hb) := sendNoWait ha "exit" true
  let (e3, hc) := sendNoWait hb "exit" true
  let (e4, hd) := sendNoWait hc "exit" true
  let (e5, he) := sendNoWait hd "exit" true
  let (e6, hf) := sendNoWait he "exit" true
  let (e7, hg) := sendNoWait hf "disable" true
  let (e8, hh) := sendNoWait hg "disable" true
  let (e9, hi) := sendNoWait hh "disable" true
  let (e10, hj) := sendNoWait hi "disable" true
  let evs0 := e1 ++ e2 ++ e3 ++ e4 ++ e5 ++ e6 ++ e7 ++ e8 ++ e9 ++ e10
  match firstScreenLoop sendFuel loopFuel hj evs0 with
  | none => none
  | some (h1, res, evs) =>
    if strHasSub res "[yes/no]" then
      match send_line h1 "no" true false 10 true 0 tenthSecond sendFuel with
      | none => none
      | some (ev, _, Except.error e) => some (evs ++ ev, Except.error e)
      | some (ev, h2, Except.ok r) =>
        some (evs ++ ev, Except.ok (h2, r.getD ""))
    else
      some (evs, Except.ok (h1, res))

/-- The tail of `_open_device_config` (source lines 161-163): send
"enable\n" verbatim with failures tolerated, then "configure terminal",
then a blank line; any raised exception propagates. -/
def enterConfigMode (sendFuel : Nat) (h : Handler) (evs : List Event) :
    Option (List Event × Except UploadErr Handler) :=
  match send_line h "enable\n" true true 100 false 0 tenthSecond sendFuel with
  | none => none
  | some (ev1, _, Except.error e) => some (evs ++ ev1, Except.error e)
  | some (ev1, h1, Except.ok _) =>
    match send_line h1 "configure terminal" true false 100 true 0 tenthSecond
        sendFuel with
    | none => none
    | some (ev2, _, Except.error e) => some (evs ++ ev1 ++ ev2, Except.error e)
    | some (ev2, h2, Except.ok _) =>
      match send_line h2 "" true false 100 true 0 tenthSecond sendFuel with
      | none => none
      | some (ev3, _, Except.error e) =>
        some (evs ++ ev1 ++ ev2 ++ ev3, Except.error e)
      | some (ev3, h3, Except.ok _) =>
        some (evs ++ ev1 ++ ev2 ++ ev3, Except.ok h3)

/-- `_open_device_config` (source lines 144-163): synchronize to the first
screen, authenticate when the response shows "User"/"Password"/
"Authentication" indicators, re-check the login response for
"Authentication failed" (raising "Enable authentication failed"), then
enter configuration mode. `user`/`password` stand for the effective
credentials (interactive prompting is an external collaborator). -/
def open_device_config (sendFuel loopFuel : Nat) (h : Handler)
    (user password : String) :
    Option (List Event × Except UploadErr Handler) :=
  match make_sure_we_are_in_the_first_screen sendFuel loopFuel h with
  | none => none
  | some (ev0, Except.error e) => some (ev0, Except.error e)
  | some (ev0, Except.ok (h0, result)) =>
    if strHasSub result "User" || strHasSub result "Password" ||
        strHasSub result "Authentication" then
      match authenticate sendFuel loopFuel h0 user password result with
      | none => none
      | some (ev1, Except.error e) => some (ev0 ++ ev1, Except.error e)
      | some (ev1, Except.ok (h1, r)) =>
        if strHasSub r "Authentication failed" then
          some (ev0 ++ ev1, Except.error UploadErr.enableAuthFailed)
        else
          enterConfigMode sendFuel h1 (ev0 ++ ev1)
    else
      enterConfigMode sendFuel h0 ev0

/-- `upload_config` (source lines 176-253) after the transport is open and
the credentials are in hand: negotiate the session, run the per-line loop
and optional persistence, then synchronize back to the first screen. -/
def upload_config (sendFuel loopFuel : Nat) (h : Handler)
    (user password : String) (lines : List String)
    (retry_interval : Millis) (persist : Bool) :
    Option (List Event × List LineSpec × Except UploadErr Handler) :=
  match open_device_config sendFuel loopFuel h user password with
  | none => none
  | some (ev0, Except.error e) => some (ev0, [], Except.error e)
  | some (ev0, Except.ok h0) =>
    match runUpload h0 lines retry_interval persist sendFuel with
    | none => none
    | some (ev1, specs, Except.error e) => some (ev0 ++ ev1, specs, Except.error e)
    | some (ev1, specs, Except.ok h1) =>
      match make_sure_we_are_in_the_first_screen sendFuel loopFuel h1 with
      | none => none
      | some (ev2, Except.error e) =>
        some (ev0 ++ ev1 ++ ev2, specs, Except.error e)
      | some (ev2, Except.ok (h2, _)) =>
        some (ev0 ++ ev1 ++ ev2, specs, Except.ok h2)

/-! ## Helper notions and lemmas -/

/-- Concatenation of `n` copies of a chunk (what the poll loop accumulates
from a port that yields the same chunk at every poll). -/
def strRepeat (c : String) : Nat → String
  | 0 => ""
  | Nat.succ n => c ++ strRepeat c n

/-- Whether an event is a write to the port. -/
def Event.isWrite : Event → Bool
  | Event.write _ => true
  | _ => false

theorem strStarts_iff (p : List Char) : ∀ s : List Char,
    strStarts s p = true ↔ ∃ r, s = p ++ r := by
  induction p with
  | nil =>
    intro s
    simp [strStarts]
  | cons d ds ih =>
    intro s
    cases s with
    | nil => simp [strStarts]
    | cons c cs =>
      simp only [strStarts, Bool.and_eq_true, beq_iff_eq, ih cs,
        List.cons_append]
      constructor
      · rintro ⟨rfl, r, rfl⟩
        exact ⟨r, rfl⟩
      · rintro ⟨r, heq⟩
        injection heq with h1 h2
        exact ⟨h1, r, h2⟩

theorem hasSubChars_iff (needle : List Char) : ∀ hay : List Char,
    hasSubChars hay needle = true ↔ ∃ l r, hay = l ++ needle ++ r := by
  intro hay
  induction hay with
  | nil =>
    simp only [hasSubChars, List.isEmpty_iff]
    constructor
    · rintro rfl
      exact ⟨[], [], rfl⟩
    · rintro ⟨l, r, heq⟩
      rcases List.append_eq_nil.mp (List.append_eq_nil.mp heq.symm).1 with ⟨-, h2⟩
      exact h2
  | cons c t ih =>
    simp only [hasSubChars, Bool.or_eq_true, strStarts_iff, ih]
    constructor
    · rintro (⟨r, heq⟩ | ⟨l, r, heq⟩)
      · exact ⟨[], r, by simpa using heq⟩
      · exact ⟨c :: l, r, by simp [heq]⟩
    · rintro ⟨l, r, heq⟩
      cases l with
      | nil =>
        exact Or.inl ⟨r, by simpa using heq⟩
      | cons x xs =>
        injection heq with h1 h2
        exact Or.inr ⟨xs, r, h2⟩

/-- The bytes `_send_line` writes for a given `line`/`append_newline`. -/
def encLine (append_newline : Bool) (line : String) : String :=
  if append_newline then pyStrip line ++ "\r\n" else line

theorem send_line_noWait (h : Handler) (line : String) (af : Bool)
    (tries : Nat) (an : Bool) (ew ri : Millis) (fuel : Nat) :
    send_line h line false af tries an ew ri fuel =
      some ([Event.write (encLine an line)], h, Except.ok none) := by
  simp [send_line, encLine]

theorem sendNoWait_eq (h : Handler) (line : String) (af : Bool) :
    sendNoWait h line af = ([Event.write (pyStrip line ++ "\r\n")], h) := by
  simp [sendNoWait, send_line]

theorem pollLoop_trace (ri : Millis) : ∀ (fuel : Nat) (h : Handler)
    (acc : String) (k : Int) (evs : List Event)
    (out : Handler × String × Int × List Event),
    pollLoop ri fuel h acc k evs = some out →
    ∃ suf, out.2.2.2 = evs ++ suf ∧ ∀ e ∈ suf, e.isWrite = false := by
  intro fuel
  induction fuel with
  | zero =>
    intro h acc k evs out hout
    simp [pollLoop] at hout
  | succ f ih =>
    intro h acc k evs out hout
    rw [pollLoop] at hout
    by_cases hc : (h.peek ≠ "" ∨ (acc = "" ∧ k ≠ 0))
    · rw [if_pos hc] at hout
      obtain ⟨suf, hsuf, hw⟩ := ih _ _ _ _ _ hout
      refine ⟨[Event.read h.peek, Event.sleep ri] ++ suf, ?_, ?_⟩
      · rw [hsuf, List.append_assoc]
      · intro e he
        rcases List.mem_append.mp he with h1 | h1
        · rcases List.mem_cons.mp h1 with rfl | h1
          · rfl
          · obtain rfl := List.mem_singleton.mp h1
            rfl
        · exact hw e h1
    · rw [if_neg hc] at hout
      simp only [Option.some.injEq] at hout
      subst hout
      exact ⟨[], by simp, by simp⟩

theorem send_line_events (h : Handler) (line : String) (wait af : Bool)
    (tries : Nat) (an : Bool) (ew ri : Millis) (fuel : Nat)
    (ev : List Event) (h' : Handler) (r : Except UploadErr (Option String))
    (hs : send_line h line wait af tries an ew ri fuel = some (ev, h', r)) :
    ∃ suf, ev = Event.write (encLine an line) :: suf ∧
      ∀ e ∈ suf, e.isWrite = false := by
  by_cases hw : wait = false
  · subst hw
    rw [send_line_noWait] at hs
    simp only [Option.some.injEq, Prod.mk.injEq] at hs
    obtain ⟨h1, -, -⟩ := hs
    subst h1
    exact ⟨[], rfl, by simp⟩
  · simp only [send_line, if_neg hw] at hs
    rw [show (if an = true then pyStrip line ++ "\r\n" else line) =
      encLine an line from rfl] at hs
    generalize hevs0 : (if ew ≠ 0 then
        [Event.write (encLine an line)] ++ [Event.sleep ew]
      else [Event.write (encLine an line)]) = evs0 at hs
    rcases hp : pollLoop ri fuel h "" (tries : Int) evs0
        with _ | ⟨h1, acc, tl, evs1⟩ <;> rw [hp] at hs <;> dsimp only at hs
    · exact absurd hs (by simp)
    · obtain ⟨suf, hsuf, hwr⟩ := pollLoop_trace ri fuel h "" _ _ _ hp
      dsimp only at hsuf
      have hev : ev = evs1 := by
        by_cases ht : tl = 0
        · rw [if_pos ht] at hs
          simp only [Option.some.injEq, Prod.mk.injEq] at hs
          exact hs.1.symm
        · rw [if_neg ht] at hs
          rcases hcl : classify (encLine an line) acc af with e | rr <;>
            rw [hcl] at hs <;>
          · simp only [Option.some.injEq, Prod.mk.injEq] at hs
            exact hs.1.symm
      subst hev
      rw [hsuf, ← hevs0]
      by_cases hew : ew ≠ 0
      · rw [if_pos hew]
        refine ⟨Event.sleep ew :: suf, by simp, ?_⟩
        intro e he
        rcases List.mem_cons.mp he with rfl | h1
        · rfl
        · exact hwr e h1
      · rw [if_neg hew]
        exact ⟨suf, by simp, hwr⟩

theorem send_line_error_shape (h : Handler) (line : String) (wait af : Bool)
    (tries : Nat) (an : Bool) (ew ri : Millis) (fuel : Nat)
    (ev : List Event) (h' : Handler) (e : UploadErr)
    (hs : send_line h line wait af tries an ew ri fuel =
      some (ev, h', Except.error e)) :
    e = UploadErr.timeout tries ∨
      ∃ a, e = UploadErr.deviceError (encLine an line) a ∧ af = false ∧
        in_error a = true := by
  by_cases hw : wait = false
  · subst hw
    rw [send_line_noWait] at hs
    simp at hs
  · simp only [send_line, if_neg hw] at hs
    rw [show (if an = true then pyStrip line ++ "\r\n" else line) =
      encLine an line from rfl] at hs
    generalize hevs0 : (if ew ≠ 0 then
        [Event.write (encLine an line)] ++ [Event.sleep ew]
      else [Event.write (encLine an line)]) = evs0 at hs
    rcases hp : pollLoop ri fuel h "" (tries : Int) evs0
        with _ | ⟨h1, acc, tl, evs1⟩ <;> rw [hp] at hs <;> dsimp only at hs
    · exact absurd hs (by simp)
    · by_cases ht : tl = 0
      · rw [if_pos ht] at hs
        simp only [Option.some.injEq, Prod.mk.injEq] at hs
        obtain ⟨-, -, h3⟩ := hs
        exact Or.inl (Except.error.inj h3).symm
      · rw [if_neg ht] at hs
        rcases hcl : classify (encLine an line) acc af with e' | rr <;>
          rw [hcl] at hs
        · simp only [Option.some.injEq, Prod.mk.injEq] at hs
          obtain ⟨-, -, h3⟩ := hs
          obtain rfl := Except.error.inj h3
          simp only [classify] at hcl
          by_cases hcond : (in_error acc && !af) = true
          · rw [if_pos hcond] at hcl
            obtain rfl := (Except.error.inj hcl).symm
            simp only [Bool.and_eq_true, Bool.not_eq_true'] at hcond
            exact Or.inr ⟨acc, rfl, hcond.2, hcond.1⟩
          · rw [if_neg hcond] at hcl
            exact absurd hcl (by simp)
        · simp at hs

theorem pollLoop_silent (ri : Millis) : ∀ (k : Nat) (fuel : Nat)
    (evs : List Event), k + 1 ≤ fuel →
    pollLoop ri fuel ⟨[]⟩ "" (k : Int) evs =
      some (⟨[]⟩, "", 0,
        evs ++ (List.replicate k [Event.read "", Event.sleep ri]).flatten) := by
  intro k
  induction k with
  | zero =>
    intro fuel evs hf
    obtain ⟨f, rfl⟩ : ∃ f, fuel = Nat.succ f := ⟨fuel - 1, by omega⟩
    rw [pollLoop, if_neg (by simp [Handler.peek])]
    simp
  | succ n ih =>
    intro fuel evs hf
    obtain ⟨f, rfl⟩ : ∃ f, fuel = Nat.succ f := ⟨fuel - 1, by omega⟩
    rw [pollLoop,
      if_pos (Or.inr ⟨rfl, by exact_mod_cast Nat.succ_ne_zero n⟩)]
    have h1 : ((n + 1 : Nat) : Int) - 1 = (n : Int) := by push_cast; ring
    rw [h1]
    calc pollLoop ri f (Handler.pop ⟨[]⟩) ("" ++ Handler.peek ⟨[]⟩) (n : Int)
          (evs ++ [Event.read (Handler.peek ⟨[]⟩), Event.sleep ri])
        = pollLoop ri f ⟨[]⟩ "" (n : Int)
            (evs ++ [Event.read "", Event.sleep ri]) := rfl
      _ = some (⟨[]⟩, "", 0, (evs ++ [Event.read "", Event.sleep ri]) ++
            (List.replicate n [Event.read "", Event.sleep ri]).flatten) :=
          ih f _ (by omega)
      _ = some (⟨[]⟩, "", 0, evs ++
            (List.replicate (n + 1)
              [Event.read "", Event.sleep ri]).flatten) := by
          rw [List.append_assoc, List.replicate_succ, List.flatten_cons]

theorem pollLoop_replicate (ri : Millis) (c : String) (hc : c ≠ "") :
    ∀ (n : Nat) (fuel : Nat) (acc : String) (k : Int) (evs : List Event),
    n ≤ fuel →
    pollLoop ri fuel ⟨List.replicate n c⟩ acc k evs =
      pollLoop ri (fuel - n) ⟨[]⟩ (acc ++ strRepeat c n) (k - (n : Int))
        (evs ++ (List.replicate n [Event.read c, Event.sleep ri]).flatten) := by
  intro n
  induction n with
  | zero =>
    intro fuel acc k evs _
    have h1 : acc ++ strRepeat c 0 = acc := by
      cases acc with
      | mk l => exact congrArg String.mk (List.append_nil l)
    simp [h1]
  | succ n ih =>
    intro fuel acc k evs hn
    obtain ⟨f, rfl⟩ : ∃ f, fuel = Nat.succ f := ⟨fuel - 1, by omega⟩
    have hpeek : (⟨List.replicate (n + 1) c⟩ : Handler).peek = c := rfl
    rw [pollLoop, if_pos (Or.inl (by rw [hpeek]; exact hc))]
    rw [hpeek]
    rw [show (⟨List.replicate (n + 1) c⟩ : Handler).pop =
      ⟨List.replicate n c⟩ from rfl]
    rw [ih f (acc ++ c) (k - 1) (evs ++ [Event.read c, Event.sleep ri])
      (by omega)]
    rw [show Nat.succ f - (n + 1) = f - n from by omega]
    rw [show acc ++ strRepeat c (n + 1) = (acc ++ c) ++ strRepeat c n from
      (String.append_assoc acc c (strRepeat c n)).symm]
    rw [show k - ((n + 1 : Nat) : Int) = k - 1 - (n : Int) from by
      push_cast; ring]
    rw [show evs ++ (List.replicate (n + 1)
        [Event.read c, Event.sleep ri]).flatten =
      (evs ++ [Event.read c, Event.sleep ri]) ++
        (List.replicate n [Event.read c, Event.sleep ri]).flatten from by
      rw [List.append_assoc, List.replicate_succ, List.flatten_cons]]

/-! ## Claims -/

/-- **C8**: for every line sent with `wait=false`, `_send_line` writes the
encoded bytes to the transport and returns immediately: the event trace is
exactly the one write (no reads, no sleeps), the port state is untouched by
reads, and the returned value is Python's `None` (modelled `none` — the
empty result); this holds for every policy parameter. -/
theorem fire_and_forget_send (h : Handler) (line : String) (af : Bool)
    (tries : Nat) (an : Bool) (ew ri : Millis) (fuel : Nat) :
    send_line h line false af tries an ew ri fuel =
      some ([Event.write (encLine an line)], h, Except.ok none) := by
  simp [send_line, encLine]

/-- **C3**: a response is classified as an error exactly when its
lower-cased text contains the substring "invalid" (characterized here as a
decomposition of the lower-cased character list), and a response that is
not error-marked is returned as an ok result by the classification step of
`_send_line` regardless of `allow_fail`. -/
theorem response_error_iff_invalid (line acc : String) (af : Bool) :
    (in_error acc = true ↔
      ∃ l r, acc.toList.map Char.toLower = l ++ "invalid".toList ++ r) ∧
    (in_error acc = false → classify line acc af = Except.ok acc) := by
  constructor
  · rw [show in_error acc =
      hasSubChars (acc.toList.map Char.toLower) "invalid".toList from rfl]
    exact hasSubChars_iff _ _
  · intro hne
    simp [classify, hne]

/-- Witness for **C3** at a concrete input: the response "Configured OK"
contains no "invalid", so the exchange returns it as the result even with
`allow_fail = false`. -/
theorem response_error_iff_invalid_witness :
    classify "interface eth0" "Configured OK" false =
      Except.ok "Configured OK" :=
  (response_error_iff_invalid "interface eth0" "Configured OK" false).2
    (by decide)

/-- **C4**: the upload loop passes `allow_fail_for` (trimmed line equals
"y", or starts with "define interface-range") to every `_send_line` call it
makes; with that policy an error-marked response never raises for an
allowed line, and for every other line it raises exactly the device error
whose message line is the trimmed line plus CRLF — which contains the
trimmed line as a substring. -/
theorem allowed_failure_policy (line acc : String) :
    (∀ orig st, (lineStep orig st line).1.allow_fail = allow_fail_for line) ∧
    (allow_fail_for line = true →
      classify (pyStrip line ++ "\r\n") acc (allow_fail_for line) =
        Except.ok acc) ∧
    (allow_fail_for line = false → in_error acc = true →
      classify (pyStrip line ++ "\r\n") acc (allow_fail_for line) =
        Except.error
          (UploadErr.deviceError (pyStrip line ++ "\r\n") acc)) ∧
    strHasSub (pyStrip line ++ "\r\n") (pyStrip line) = true := by
  refine ⟨?_, ?_, ?_, ?_⟩
  · intro orig st
    simp only [lineStep]
    split <;> rfl
  · intro haf
    rw [haf]
    simp [classify]
  · intro haf hin
    rw [haf]
    simp [classify, hin]
  · rw [show strHasSub (pyStrip line ++ "\r\n") (pyStrip line) =
      hasSubChars (pyStrip line ++ "\r\n").toList (pyStrip line).toList
      from rfl]
    rw [hasSubChars_iff]
    exact ⟨[], "\r\n".toList, by
      show (pyStrip line ++ "\r\n").data = _
      rw [String.data_append]
      simp⟩

/-- Witness for **C4** at a concrete input: the line " y " trims to "y", so
its error-marked response "Invalid input" does not raise. -/
theorem allowed_failure_policy_witness :
    classify (pyStrip " y " ++ "\r\n") "Invalid input" (allow_fail_for " y ") =
      Except.ok "Invalid input" :=
  (allowed_failure_policy " y " "Invalid input").2.1 (by decide)

/-- **C2**: against a transport that never reports pending bytes and whose
every read returns nothing (`Handler.mk []`), a waiting `_send_line` raises
the timeout after exactly `tries` poll iterations — the trace past the
write (and the optional `extra_wait` sleep) is precisely `tries` copies of
one empty read followed by one `retry_interval` sleep, no more and no
fewer — and the accumulated result is discarded. -/
theorem silent_exchange_times_out (line : String) (af : Bool) (tries : Nat)
    (ew ri : Millis) (fuel : Nat) (hf : tries + 1 ≤ fuel) :
    send_line ⟨[]⟩ line true af tries true ew ri fuel =
      some ((if ew ≠ 0 then
          [Event.write (pyStrip line ++ "\r\n")] ++ [Event.sleep ew]
        else [Event.write (pyStrip line ++ "\r\n")]) ++
        (List.replicate tries [Event.read "", Event.sleep ri]).flatten,
        ⟨[]⟩, Except.error (UploadErr.timeout tries)) := by
  simp only [send_line]
  rw [if_neg (by simp)]
  rw [show (if True then pyStrip line ++ "\r\n" else line) =
    pyStrip line ++ "\r\n" from if_pos trivial]
  rw [pollLoop_silent ri tries fuel _ hf]
  dsimp only
  rw [if_pos rfl]

/-- Witness for **C2**: with `tries = 3` the silent transport produces
exactly three empty polls and then the timeout error. -/
theorem silent_exchange_times_out_witness :
    send_line ⟨[]⟩ "show clock" true false 3 true 0 100 4 =
      some ([Event.write "show clock\r\n"] ++
        (List.replicate 3 [Event.read "", Event.sleep 100]).flatten,
        ⟨[]⟩, Except.error (UploadErr.timeout 3)) := by
  have h := silent_exchange_times_out "show clock" false 3 0 100 4 (by omega)
  rw [if_neg (by decide)] at h
  rw [show pyStrip "show clock" ++ "\r\n" = "show clock\r\n" from by
    decide] at h
  exact h

theorem strRepeat_succ_ne_empty (c : String) (hc : c ≠ "") (n : Nat) :
    strRepeat c (n + 1) ≠ "" := by
  intro h
  apply hc
  have h' : c ++ strRepeat c n = "" := h
  have hd := congrArg String.data h'
  rw [String.data_append] at hd
  obtain ⟨h1, -⟩ := List.append_eq_nil.mp hd
  cases c with
  | mk l => exact congrArg String.mk h1

/-- **C9**: the timeout fires exactly when the poll loop exits with the
retry counter at zero. A port with pending bytes at each of the first
`tries` polls (script `replicate tries c`, `c` non-empty) leaves the
counter at zero, so the exchange raises the timeout and discards the
non-empty accumulation; a port busy for `tries + 1` polls drives the
counter to `-1`, so the same exchange returns the accumulated text as a
success instead of timing out. -/
theorem timeout_exactly_at_zero_counter (tries : Nat) (c line : String)
    (af : Bool) (ew ri : Millis) (fuel : Nat) (hc : c ≠ "")
    (hf : tries + 2 ≤ fuel) :
    (∃ evs, send_line ⟨List.replicate tries c⟩ line true af tries true ew ri
        fuel = some (evs, ⟨[]⟩, Except.error (UploadErr.timeout tries))) ∧
    (∃ evs, send_line ⟨List.replicate (tries + 1) c⟩ line true true tries
        true ew ri fuel =
      some (evs, ⟨[]⟩, Except.ok (some (strRepeat c (tries + 1))))) := by
  constructor
  · refine ⟨(if ew ≠ 0 then
        [Event.write (pyStrip line ++ "\r\n")] ++ [Event.sleep ew]
      else [Event.write (pyStrip line ++ "\r\n")]) ++
      (List.replicate tries [Event.read c, Event.sleep ri]).flatten, ?_⟩
    simp only [send_line]
    rw [if_neg (by simp)]
    rw [show (if True then pyStrip line ++ "\r\n" else line) =
      pyStrip line ++ "\r\n" from if_pos trivial]
    rw [pollLoop_replicate ri c hc tries fuel "" (tries : Int) _ (by omega)]
    rw [show (tries : Int) - (tries : Int) = 0 from sub_self _]
    obtain ⟨g, hg⟩ : ∃ g, fuel - tries = Nat.succ g :=
      ⟨fuel - tries - 1, by omega⟩
    rw [hg, pollLoop, if_neg (by simp [Handler.peek])]
    dsimp only
    rw [if_pos rfl]
  · refine ⟨(if ew ≠ 0 then
        [Event.write (pyStrip line ++ "\r\n")] ++ [Event.sleep ew]
      else [Event.write (pyStrip line ++ "\r\n")]) ++
      (List.replicate (tries + 1) [Event.read c, Event.sleep ri]).flatten,
      ?_⟩
    simp only [send_line]
    rw [if_neg (by simp)]
    rw [show (if True then pyStrip line ++ "\r\n" else line) =
      pyStrip line ++ "\r\n" from if_pos trivial]
    rw [pollLoop_replicate ri c hc (tries + 1) fuel "" (tries : Int) _
      (by omega)]
    rw [show (tries : Int) - ((tries + 1 : Nat) : Int) = -1 from by
      push_cast; ring]
    obtain ⟨g, hg⟩ : ∃ g, fuel - (tries + 1) = Nat.succ g :=
      ⟨fuel - (tries + 1) - 1, by omega⟩
    rw [hg, pollLoop]
    rw [if_neg ?hcond]
    case hcond =>
      rintro (hpk | ⟨hacc, -⟩)
      · exact hpk rfl
      · exact strRepeat_succ_ne_empty c hc tries hacc
    dsimp only
    rw [if_neg (by decide)]
    rw [show classify (pyStrip line ++ "\r\n")
        ("" ++ strRepeat c (tries + 1)) true =
      Except.ok ("" ++ strRepeat c (tries + 1)) from by simp [classify]]
    rfl

/-- Witness for **C9**: with `tries = 2` and chunk "a", two busy polls end
in the timeout (the accumulated "aa" is discarded), while three busy polls
return "aaa" as a success. -/
theorem timeout_exactly_at_zero_counter_witness :
    (∃ evs, send_line ⟨List.replicate 2 "a"⟩ "ping" true false 2 true 0 100
        9 = some (evs, ⟨[]⟩, Except.error (UploadErr.timeout 2))) ∧
    (∃ evs, send_line ⟨List.replicate 3 "a"⟩ "ping" true true 2 true 0 100
        9 = some (evs, ⟨[]⟩, Except.ok (some (strRepeat "a" 3)))) :=
  timeout_exactly_at_zero_counter 2 "a" "ping" false 0 100 9 (by decide)
    (by omega)

/-- **C1** counterexample: running the upload loop on a config whose first
line is "crypto key generate 2048" (previous policy state: the defaults),
the exchange for the crypto line itself uses `tries = 100`,
`extra_wait = 2.0 s` and the configured `retry_interval = 0.01 s` — not the
`tries = 5000` / `retry_interval = 0.1 s` the claim asserts; only the next
line's exchange gets 5000/0.1. -/
theorem crypto_policy_lag_cex :
    ((runUpload ⟨["A", "", "B"]⟩
        ["crypto key generate 2048", "ip name-server 1.2.3.4"]
        defaultCliInterval false 6).map
      (fun out => out.2.1.map
        (fun sp => (sp.tries, sp.extra_wait, sp.retry_interval))) =
      some [(100, twoSeconds, defaultCliInterval),
            (5000, 0, tenthSecond)]) ∧
    ((runUpload ⟨["A", "", "B"]⟩
        ["crypto key generate 2048", "ip name-server 1.2.3.4"]
        defaultCliInterval false 6).map
      (fun out => out.2.1.map
        (fun sp => (sp.tries, sp.extra_wait, sp.retry_interval))) ≠
      some [(5000, twoSeconds, tenthSecond),
            (5000, 0, tenthSecond)]) := by
  constructor <;> decide

/-- **C1** (amended): a line containing "crypto key generate" is sent with
`extra_wait = 2.0 s`, but with the `tries` and `retry_interval` computed
during the *previous* iteration (`next_tries` / `next_retry_interval`, the
defaults 100 and the configured interval when the previous line was not a
crypto line); the elevated `tries = 5000` and `retry_interval = 0.1 s` are
installed into the loop state and thus apply to the *following* line's
exchange, whatever that line is. -/
theorem crypto_policy_lag (st : LoopSt) (orig : Millis) (rawLine : String)
    (hc : strHasSub (pyStrip rawLine) "crypto key generate" = true) :
    (lineStep orig st rawLine).1.tries = st.next_tries ∧
    (lineStep orig st rawLine).1.retry_interval = st.next_retry_interval ∧
    (lineStep orig st rawLine).1.extra_wait = twoSeconds ∧
    (lineStep orig st rawLine).2.next_tries = 5000 ∧
    (lineStep orig st rawLine).2.next_retry_interval = tenthSecond ∧
    (∀ rawLine' : String,
      (lineStep orig (lineStep orig st rawLine).2 rawLine').1.tries = 5000 ∧
      (lineStep orig (lineStep orig st rawLine).2 rawLine').1.retry_interval =
        tenthSecond) := by
  refine ⟨?_, ?_, ?_, ?_, ?_, ?_⟩
  · simp [lineStep, hc]
  · simp [lineStep, hc]
  · simp [lineStep, hc]
  · simp [lineStep, hc]
  · simp [lineStep, hc]
  · intro rawLine'
    constructor
    · simp only [lineStep, hc, if_pos]
      split <;> rfl
    · simp only [lineStep, hc, if_pos]
      split <;> rfl

/-- Witness for **C1** (amended) at the default policy state and the
concrete crypto line. -/
theorem crypto_policy_lag_witness :
    (lineStep defaultCliInterval
      ⟨100, defaultCliInterval, none, none, defaultCliInterval⟩
      "crypto key generate 2048").1.tries = 100 ∧
    (lineStep defaultCliInterval
      ⟨100, defaultCliInterval, none, none, defaultCliInterval⟩
      "crypto key generate 2048").1.retry_interval = defaultCliInterval ∧
    (lineStep defaultCliInterval
      ⟨100, defaultCliInterval, none, none, defaultCliInterval⟩
      "crypto key generate 2048").1.extra_wait = twoSeconds ∧
    (lineStep defaultCliInterval
      ⟨100, defaultCliInterval, none, none, defaultCliInterval⟩
      "crypto key generate 2048").2.next_tries = 5000 ∧
    (lineStep defaultCliInterval
      ⟨100, defaultCliInterval, none, none, defaultCliInterval⟩
      "crypto key generate 2048").2.next_retry_interval = tenthSecond ∧
    (∀ rawLine' : String,
      (lineStep defaultCliInterval
        (lineStep defaultCliInterval
          ⟨100, defaultCliInterval, none, none, defaultCliInterval⟩
          "crypto key generate 2048").2 rawLine').1.tries = 5000 ∧
      (lineStep defaultCliInterval
        (lineStep defaultCliInterval
          ⟨100, defaultCliInterval, none, none, defaultCliInterval⟩
          "crypto key generate 2048").2 rawLine').1.retry_interval =
        tenthSecond) :=
  crypto_policy_lag
    ⟨100, defaultCliInterval, none, none, defaultCliInterval⟩
    defaultCliInterval "crypto key generate 2048" (by decide)

/-- **C5**: in the persistence block, "end" is always the first write, any
device error raised carries the "copy running-config startup-config" line
(the "end" send is `allow_fail=True`, so an error-marked response to it
never raises a device error), and whenever the "end" exchange completes —
error-marked response included — the copy command is written next. -/
theorem persistence_order_and_tolerance (h : Handler) (tr : Nat)
    (ew ri : Millis) (fuel : Nat) (evs : List Event)
    (r : Except UploadErr Handler)
    (hp : persistStep h (some tr) (some ew) ri fuel = some (evs, r)) :
    (∃ rest, evs = Event.write "end\r\n" :: rest) ∧
    (∀ l a, r = Except.error (UploadErr.deviceError l a) →
      l = "copy running-config startup-config\r\n") ∧
    (∀ ev1 h1 res,
      send_line h "end" true true 100 true 0 tenthSecond fuel =
        some (ev1, h1, Except.ok res) →
      Event.write "copy running-config startup-config\r\n" ∈ evs) := by
  simp only [persistStep] at hp
  rcases hse : send_line h "end" true true 100 true 0 tenthSecond fuel
      with _ | ⟨ev1, h1, re⟩ <;> rw [hse] at hp
  · simp at hp
  · obtain ⟨suf1, hsuf1, -⟩ := send_line_events _ _ _ _ _ _ _ _ _ _ _ _ hse
    rw [show encLine true "end" = "end\r\n" from by decide] at hsuf1
    rcases re with e | res
    · dsimp only at hp
      simp only [Option.some.injEq, Prod.mk.injEq] at hp
      obtain ⟨rfl, rfl⟩ := hp
      refine ⟨⟨suf1, hsuf1⟩, ?_, ?_⟩
      · intro l a hra
        obtain rfl := Except.error.inj hra
        rcases send_line_error_shape _ _ _ _ _ _ _ _ _ _ _ _ hse with
          he1 | ⟨a', he1, he2, -⟩
        · exact absurd he1 (by simp)
        · exact absurd he2 (by simp)
      · intro ev1' h1' res hok
        exact absurd hok (by simp)
    · dsimp only at hp
      rcases hsc : send_line h1 "copy running-config startup-config" true
          false tr true ew ri fuel
          with _ | ⟨ev2, h2, rc⟩ <;> rw [hsc] at hp
      · simp at hp
      · obtain ⟨suf2, hsuf2, -⟩ :=
          send_line_events _ _ _ _ _ _ _ _ _ _ _ _ hsc
        rw [show encLine true "copy running-config startup-config" =
          "copy running-config startup-config\r\n" from by decide] at hsuf2
        have hmem : Event.write "copy running-config startup-config\r\n" ∈
            ev1 ++ ev2 := by
          rw [hsuf2]
          exact List.mem_append.mpr (Or.inr (List.mem_cons_self _ _))
        rcases rc with e | res2
        · dsimp only at hp
          simp only [Option.some.injEq, Prod.mk.injEq] at hp
          obtain ⟨rfl, rfl⟩ := hp
          refine ⟨⟨suf1 ++ ev2, by rw [hsuf1]; rfl⟩, ?_, fun _ _ _ _ => hmem⟩
          intro l a hra
          obtain rfl := Except.error.inj hra
          rcases send_line_error_shape _ _ _ _ _ _ _ _ _ _ _ _ hsc with
            he1 | ⟨a', he1, -, -⟩
          · exact absurd he1 (by simp)
          · exact ((UploadErr.deviceError.inj he1).1).trans (by decide)
        · dsimp only at hp
          simp only [Option.some.injEq, Prod.mk.injEq] at hp
          obtain ⟨rfl, rfl⟩ := hp
          exact ⟨⟨suf1 ++ ev2, by rw [hsuf1]; rfl⟩,
            fun l a hra => absurd hra (by simp),
            fun _ _ _ _ => hmem⟩

instance {e a : Type} [DecidableEq e] [DecidableEq a] :
    DecidableEq (Except e a) := fun x y =>
  match x, y with
  | Except.error u, Except.error v =>
    if h : u = v then isTrue (by rw [h]) else isFalse (by simp [h])
  | Except.ok u, Except.ok v =>
    if h : u = v then isTrue (by rw [h]) else isFalse (by simp [h])
  | Except.error _, Except.ok _ => isFalse (by simp)
  | Except.ok _, Except.error _ => isFalse (by simp)

/-- Witness for **C5**: error-marked responses to both persistence sends —
"end" tolerates its error-marked response and the copy command is still
written; the copy command's error-marked response raises the device error
carrying the copy line. -/
theorem persistence_order_and_tolerance_witness :
    (∃ rest, ([Event.write "end\r\n", Event.read "Invalid A",
        Event.sleep 100,
        Event.write "copy running-config startup-config\r\n",
        Event.read "", Event.sleep 10, Event.read "Invalid B",
        Event.sleep 10] : List Event) = Event.write "end\r\n" :: rest) ∧
    (∀ l a, (Except.error (UploadErr.deviceError
          "copy running-config startup-config\r\n" "Invalid B") :
        Except UploadErr Handler) =
        Except.error (UploadErr.deviceError l a) →
      l = "copy running-config startup-config\r\n") ∧
    (∀ ev1 h1 res,
      send_line ⟨["Invalid A", "", "Invalid B"]⟩ "end" true true 100 true 0
          tenthSecond 5 = some (ev1, h1, Except.ok res) →
      Event.write "copy running-config startup-config\r\n" ∈
        [Event.write "end\r\n", Event.read "Invalid A", Event.sleep 100,
         Event.write "copy running-config startup-config\r\n",
         Event.read "", Event.sleep 10, Event.read "Invalid B",
         Event.sleep 10]) :=
  persistence_order_and_tolerance ⟨["Invalid A", "", "Invalid B"]⟩ 100 0 10 5
    _ _ (by decide)

/-- **C10**: with an empty config and persistence on, the copy command is
never written, and whenever the "end" exchange completes the run fails with
the `UnboundLocalError` on the loop local `tries` — the persistence send
reads `tries`/`extra_wait`, which only the (never executed) loop body
assigns. -/
theorem empty_config_unbound_local (script : List String) (ri : Millis)
    (fuel : Nat) (evs : List Event) (specs : List LineSpec)
    (r : Except UploadErr Handler)
    (hr : runUpload ⟨script⟩ [] ri true fuel = some (evs, specs, r)) :
    Event.write "copy running-config startup-config\r\n" ∉ evs ∧
    (∀ ev1 h1 res,
      send_line ⟨script⟩ "end" true true 100 true 0 tenthSecond fuel =
        some (ev1, h1, Except.ok res) →
      r = Except.error (UploadErr.unboundLocal "tries")) := by
  simp only [runUpload, uploadLoop, persistStep] at hr
  rw [if_pos trivial] at hr
  rcases hse : send_line ⟨script⟩ "end" true true 100 true 0 tenthSecond
      fuel with _ | ⟨ev1, h1, re⟩ <;> rw [hse] at hr
  · simp at hr
  · obtain ⟨suf1, hsuf1, hwr1⟩ :=
      send_line_events _ _ _ _ _ _ _ _ _ _ _ _ hse
    rw [show encLine true "end" = "end\r\n" from by decide] at hsuf1
    have hnotin : Event.write "copy running-config startup-config\r\n" ∉
        ev1 := by
      rw [hsuf1]
      intro hmem
      rcases List.mem_cons.mp hmem with heq | hmem2
      · exact absurd heq (by decide)
      · simpa [Event.isWrite] using hwr1 _ hmem2
    rcases re with e | res
    · dsimp only at hr
      simp only [Option.some.injEq, Prod.mk.injEq] at hr
      obtain ⟨rfl, -, rfl⟩ := hr
      exact ⟨by simpa using hnotin, fun _ _ _ hok => absurd hok (by simp)⟩
    · dsimp only at hr
      simp only [Option.some.injEq, Prod.mk.injEq] at hr
      obtain ⟨rfl, -, rfl⟩ := hr
      exact ⟨by simpa using hnotin, fun _ _ _ _ => rfl⟩

/-- Witness for **C10**: a port answering "pong" to the "end" send — the
run reaches the copy send's argument evaluation and fails on the unbound
`tries`, with no copy write in the trace. -/
theorem empty_config_unbound_local_witness :
    Event.write "copy running-config startup-config\r\n" ∉
      ([Event.write "end\r\n", Event.read "pong", Event.sleep 100] :
        List Event) ∧
    (∀ ev1 h1 res,
      send_line ⟨["pong"]⟩ "end" true true 100 true 0 tenthSecond 5 =
        some (ev1, h1, Except.ok res) →
      (Except.error (UploadErr.unboundLocal "tries") :
          Except UploadErr Handler) =
        Except.error (UploadErr.unboundLocal "tries")) :=
  empty_config_unbound_local ["pong"] 10 5
    [Event.write "end\r\n", Event.read "pong", Event.sleep 100] []
    (Except.error (UploadErr.unboundLocal "tries")) (by decide)

/-- **C6** counterexample: a transport that answers the synchronizer's
blank ping with a first-boot wizard prompt containing "[yes/no]" and then
goes silent. The follow-up "no" exchange sits outside the try/except, times
out after its 10 polls, and the prompt-synchronization operation raises —
it does not "never raise". -/
theorem prompt_sync_raise_cex :
    (make_sure_we_are_in_the_first_screen 12 2
        ⟨["confirm setup? [yes/no] >"]⟩).map (fun out => out.2) =
      some (Except.error (UploadErr.timeout 10)) := by decide

/-- `true` unless the synchronizer outcome is a raised error whose trace
lacks the "no" write: used to state that the only way
`_make_sure_we_are_in_the_first_screen` can raise is out of the wizard
"no" send. -/
def raisesOnlyAfterNo
    (out : Option (List Event × Except UploadErr (Handler × String))) :
    Bool :=
  match out with
  | some (evs, Except.error _) => decide (Event.write "no\r\n" ∈ evs)
  | _ => true

/-- **C6** (amended): the blank-ping retry loop of the prompt synchronizer
does swallow every exchange failure and retries; but when the obtained
response contains "[yes/no]", the follow-up "no" exchange is unprotected,
so the operation can raise — and every raised error occurs after the "no"
line was written (the trace contains the "no" write). -/
theorem prompt_sync_raises_only_after_no (sendFuel loopFuel : Nat)
    (h : Handler) :
    raisesOnlyAfterNo
      (make_sure_we_are_in_the_first_screen sendFuel loopFuel h) = true := by
  simp only [make_sure_we_are_in_the_first_screen, sendNoWait_eq]
  rcases hf : firstScreenLoop sendFuel loopFuel h _ with _ | ⟨h1, res, evs⟩
  · rfl
  · dsimp only
    by_cases hyn : strHasSub res "[yes/no]" = true
    · rw [if_pos hyn]
      rcases hno : send_line h1 "no" true false 10 true 0 tenthSecond
          sendFuel with _ | ⟨ev, h2, rn⟩
      · rfl
      · obtain ⟨suf, hsuf, -⟩ :=
          send_line_events _ _ _ _ _ _ _ _ _ _ _ _ hno
        rw [show encLine true "no" = "no\r\n" from by decide] at hsuf
        rcases rn with e | rr
        · show decide (Event.write "no\r\n" ∈ evs ++ ev) = true
          refine decide_eq_true ?_
          rw [hsuf]
          exact List.mem_append.mpr (Or.inr (List.mem_cons_self _ _))
        · rfl
    · rw [if_neg hyn]
      rfl

theorem wait_for_err_shape (sendFuel : Nat) (expected : String) (t : Nat) :
    ∀ (fuel : Nat) (h : Handler) (cur : String) (tl : Nat)
      (evs evs' : List Event) (e : UploadErr),
    wait_for sendFuel expected t fuel h cur tl evs =
      some (evs', Except.error e) →
    e = UploadErr.waitTimeout expected t := by
  intro fuel
  induction fuel with
  | zero =>
    intro h cur tl evs evs' e hw
    rw [wait_for] at hw
    split at hw
    · simp at hw
    · exact absurd hw (by simp)
  | succ f ih =>
    intro h cur tl evs evs' e hw
    rw [wait_for] at hw
    split at hw
    · simp at hw
    · rcases hs : send_line h "" true false 10 true 0 tenthSecond sendFuel
          with _ | ⟨ev, h1, rs⟩ <;> rw [hs] at hw
      · simp at hw
      · rcases rs with e' | r
        · dsimp only at hw
          split at hw
          · simp only [Option.some.injEq, Prod.mk.injEq] at hw
            exact (Except.error.inj hw.2).symm
          · exact ih _ _ _ _ _ _ hw
        · dsimp only at hw
          exact ih _ _ _ _ _ _ hw

theorem enterConfigMode_no_enable_auth (sf : Nat) (h : Handler)
    (evs evs' : List Event) (e : UploadErr)
    (hc : enterConfigMode sf h evs = some (evs', Except.error e)) :
    e ≠ UploadErr.enableAuthFailed := by
  simp only [enterConfigMode] at hc
  rcases h1 : send_line h "enable\n" true true 100 false 0 tenthSecond sf
      with _ | ⟨ev1, ha, r1⟩ <;> rw [h1] at hc
  · simp at hc
  · rcases r1 with e1 | v1
    · dsimp only at hc
      simp only [Option.some.injEq, Prod.mk.injEq] at hc
      obtain ⟨-, hee⟩ := hc
      obtain rfl := Except.error.inj hee
      rcases send_line_error_shape _ _ _ _ _ _ _ _ _ _ _ _ h1 with
        hs | ⟨a, hs, -, -⟩ <;> subst hs <;> simp
    · dsimp only at hc
      rcases h2 : send_line ha "configure terminal" true false 100 true 0
          tenthSecond sf with _ | ⟨ev2, hb, r2⟩ <;> rw [h2] at hc
      · simp at hc
      · rcases r2 with e2 | v2
        · dsimp only at hc
          simp only [Option.some.injEq, Prod.mk.injEq] at hc
          obtain ⟨-, hee⟩ := hc
          obtain rfl := Except.error.inj hee
          rcases send_line_error_shape _ _ _ _ _ _ _ _ _ _ _ _ h2 with
            hs | ⟨a, hs, -, -⟩ <;> subst hs <;> simp
        · dsimp only at hc
          rcases h3 : send_line hb "" true false 100 true 0 tenthSecond sf
              with _ | ⟨ev3, hcn, r3⟩ <;> rw [h3] at hc
          · simp at hc
          · rcases r3 with e3 | v3
            · dsimp only at hc
              simp only [Option.some.injEq, Prod.mk.injEq] at hc
              obtain ⟨-, hee⟩ := hc
              obtain rfl := Except.error.inj hee
              rcases send_line_error_shape _ _ _ _ _ _ _ _ _ _ _ _ h3 with
                hs | ⟨a, hs, -, -⟩ <;> subst hs <;> simp
            · dsimp only at hc
              simp at hc

theorem make_sure_err_shape (sf lf : Nat) (h : Handler) (evs : List Event)
    (e : UploadErr)
    (hm : make_sure_we_are_in_the_first_screen sf lf h =
      some (evs, Except.error e)) :
    e = UploadErr.timeout 10 ∨ ∃ l a, e = UploadErr.deviceError l a := by
  simp only [make_sure_we_are_in_the_first_screen, sendNoWait_eq] at hm
  rcases hf : firstScreenLoop sf lf h _ with _ | ⟨h1, res, evs1⟩ <;>
    rw [hf] at hm
  · simp at hm
  · dsimp only at hm
    by_cases hyn : strHasSub res "[yes/no]" = true
    · rw [if_pos hyn] at hm
      rcases hno : send_line h1 "no" true false 10 true 0 tenthSecond sf
          with _ | ⟨ev, h2, rn⟩ <;> rw [hno] at hm
      · simp at hm
      · rcases rn with e' | r
        · dsimp only at hm
          simp only [Option.some.injEq, Prod.mk.injEq] at hm
          obtain ⟨-, hee⟩ := hm
          obtain rfl := Except.error.inj hee
          rcases send_line_error_shape _ _ _ _ _ _ _ _ _ _ _ _ hno with
            hs | ⟨a, hs, -, -⟩
          · exact Or.inl hs
          · exact Or.inr ⟨_, _, hs⟩
        · dsimp only at hm
          simp at hm
    · rw [if_neg hyn] at hm
      simp at hm

theorem authenticate_shape (sendFuel waitFuel : Nat) (h : Handler)
    (user password current : String) (evs : List Event)
    (r : Except UploadErr (Handler × String))
    (ha : authenticate sendFuel waitFuel h user password current =
      some (evs, r)) :
    (∀ e, r = Except.error e → e ≠ UploadErr.enableAuthFailed) ∧
    (∀ h' res, r = Except.ok (h', res) →
      strHasSub res "Authentication failed" = false) := by
  simp only [authenticate] at ha
  rcases hw1 : wait_for sendFuel "Username" 10 waitFuel h current 10 []
      with _ | ⟨ev1, r1⟩ <;> rw [hw1] at ha
  · simp at ha
  · rcases r1 with e1 | ⟨h1, v1⟩
    · dsimp only at ha
      simp only [Option.some.injEq, Prod.mk.injEq] at ha
      obtain ⟨-, rfl⟩ := ha
      refine ⟨?_, by simp⟩
      intro e he
      obtain rfl := Except.error.inj he
      rw [wait_for_err_shape _ _ _ _ _ _ _ _ _ _ hw1]
      simp
    · dsimp only at ha
      rcases hs1 : send_line h1 (user ++ "\n") true false 100 false 0
          tenthSecond sendFuel with _ | ⟨ev2, h2, r2⟩ <;> rw [hs1] at ha
      · simp at ha
      · rcases r2 with e2 | v2
        · dsimp only at ha
          simp only [Option.some.injEq, Prod.mk.injEq] at ha
          obtain ⟨-, rfl⟩ := ha
          refine ⟨?_, by simp⟩
          intro e he
          obtain rfl := Except.error.inj he
          rcases send_line_error_shape _ _ _ _ _ _ _ _ _ _ _ _ hs1 with
            hs | ⟨a, hs, -, -⟩ <;> subst hs <;> simp
        · dsimp only at ha
          by_cases hpw : strHasSub (v2.getD "") "Password" = true <;>
            [rw [if_pos hpw] at ha; rw [if_neg hpw] at ha]
          · dsimp only at ha
            rcases hs2 : send_line h2 password true false 100 true 0
                tenthSecond sendFuel with _ | ⟨ev4, h4, r4⟩ <;>
              rw [hs2] at ha
            · simp at ha
            · rcases r4 with e4 | v4
              · dsimp only at ha
                simp only [Option.some.injEq, Prod.mk.injEq] at ha
                obtain ⟨-, rfl⟩ := ha
                refine ⟨?_, by simp⟩
                intro e he
                obtain rfl := Except.error.inj he
                rcases send_line_error_shape _ _ _ _ _ _ _ _ _ _ _ _ hs2
                  with hs | ⟨a, hs, -, -⟩ <;> subst hs <;> simp
              · dsimp only at ha
                by_cases haf : strHasSub (v4.getD "") "Authentication failed"
                    = true <;> [rw [if_pos haf] at ha; rw [if_neg haf] at ha]
                · simp only [Option.some.injEq, Prod.mk.injEq] at ha
                  obtain ⟨-, rfl⟩ := ha
                  exact ⟨fun e he => by
                    obtain rfl := Except.error.inj he
                    simp, by simp⟩
                · simp only [Option.some.injEq, Prod.mk.injEq] at ha
                  obtain ⟨-, rfl⟩ := ha
                  refine ⟨by simp, ?_⟩
                  intro h' res hok
                  obtain hv := Except.ok.inj hok
                  obtain ⟨-, rfl⟩ := Prod.mk.injEq .. ▸ hv
                  simpa using haf
          · rcases hw2 : wait_for sendFuel "Password" 10 waitFuel h2
                (v2.getD "") 10 (ev1 ++ ev2) with _ | ⟨ev3, r3⟩ <;>
              rw [hw2] at ha
            · simp at ha
            · rcases r3 with e3 | ⟨h3, v3⟩
              · dsimp only at ha
                simp only [Option.some.injEq, Prod.mk.injEq] at ha
                obtain ⟨-, rfl⟩ := ha
                refine ⟨?_, by simp⟩
                intro e he
                obtain rfl := Except.error.inj he
                rw [wait_for_err_shape _ _ _ _ _ _ _ _ _ _ hw2]
                simp
              · dsimp only at ha
                rcases hs2 : send_line h3 password true false 100 true 0
                    tenthSecond sendFuel with _ | ⟨ev4, h4, r4⟩ <;>
                  rw [hs2] at ha
                · simp at ha
                · rcases r4 with e4 | v4
                  · dsimp only at ha
                    simp only [Option.some.injEq, Prod.mk.injEq] at ha
                    obtain ⟨-, rfl⟩ := ha
                    refine ⟨?_, by simp⟩
                    intro e he
                    obtain rfl := Except.error.inj he
                    rcases send_line_error_shape _ _ _ _ _ _ _ _ _ _ _ _ hs2
                      with hs | ⟨a, hs, -, -⟩ <;> subst hs <;> simp
                  · dsimp only at ha
                    by_cases haf : strHasSub (v4.getD "")
                        "Authentication failed" = true <;>
                      [rw [if_pos haf] at ha; rw [if_neg haf] at ha]
                    · simp only [Option.some.injEq, Prod.mk.injEq] at ha
                      obtain ⟨-, rfl⟩ := ha
                      exact ⟨fun e he => by
                        obtain rfl := Except.error.inj he
                        simp, by simp⟩
                    · simp only [Option.some.injEq, Prod.mk.injEq] at ha
                      obtain ⟨-, rfl⟩ := ha
                      refine ⟨by simp, ?_⟩
                      intro h' res hok
                      obtain hv := Except.ok.inj hok
                      obtain ⟨-, rfl⟩ := Prod.mk.injEq .. ▸ hv
                      simpa using haf

/-- `true` unless the session-negotiation outcome is the raised
"Enable authentication failed" error. -/
def noEnableAuthFailure
    (out : Option (List Event × Except UploadErr Handler)) : Bool :=
  match out with
  | some (_, Except.error UploadErr.enableAuthFailed) => false
  | _ => true

/-- **C7**: the session negotiator performs no enable-stage password
validation. First conjunct — the failing input: login succeeds, the
"enable" exchange is answered with a fresh "Password:" demand (and the
device then refuses the next commands with "access denied"), yet
`_open_device_config` completes successfully instead of raising an
authentication failure. Second conjunct — the dead code: on *every*
transport behaviour and credentials, the negotiation never produces the
"Enable authentication failed" error, because the check guarding it
re-examines the login response that `_authenticate` has already verified
(`_authenticate` raises on "Authentication failed" itself), and the
"enable" send runs with `allow_fail=True` and its response is ignored. -/
theorem enable_password_never_validated :
    ((open_device_config 12 3
        ⟨["Username:", "", "Password:", "", "Welcome admin", "",
          "Password:", "", "access denied", "", "cfg>"]⟩
        "admin" "hunter2").map (fun out => out.2) =
      some (Except.ok ⟨[]⟩)) ∧
    (∀ sf lf h u p,
      noEnableAuthFailure (open_device_config sf lf h u p) = true) := by
  constructor
  · decide
  · intro sf lf h u p
    simp only [open_device_config]
    rcases hm : make_sure_we_are_in_the_first_screen sf lf h
        with _ | ⟨ev0, rm⟩
    · rfl
    · rcases rm with e | ⟨h0, res⟩
      · dsimp only
        rcases make_sure_err_shape sf lf h ev0 e hm with h1 | ⟨l, a, h1⟩ <;>
          subst h1 <;> rfl
      · dsimp only
        by_cases hind : (strHasSub res "User" || strHasSub res "Password" ||
            strHasSub res "Authentication") = true
        · rw [if_pos hind]
          rcases hau : authenticate sf lf h0 u p res with _ | ⟨ev1, ra⟩
          · rfl
          · rcases ra with e | ⟨h1, r⟩
            · dsimp only
              have hne := (authenticate_shape _ _ _ _ _ _ _ _ hau).1 e rfl
              cases e <;> first | rfl | exact absurd rfl hne
            · dsimp only
              have hok := (authenticate_shape _ _ _ _ _ _ _ _ hau).2 h1 r rfl
              rw [if_neg (by simp [hok])]
              rcases hec : enterConfigMode sf h1 (ev0 ++ ev1)
                  with _ | ⟨ev2, rc⟩
              · rfl
              · rcases rc with e | h2
                · have hne := enterConfigMode_no_enable_auth _ _ _ _ _ hec
                  cases e <;> first | rfl | exact absurd rfl hne
                · rfl
        · rw [if_neg hind]
          rcases hec : enterConfigMode sf h0 ev0 with _ | ⟨ev2, rc⟩
          · rfl
          · rcases rc with e | h2
            · have hne := enterConfigMode_no_enable_auth _ _ _ _ _ hec
              cases e <;> first | rfl | exact absurd rfl hne
            · rfl
